import Mathlib

/-!
Verification of the retry-execution engine of `glennpratt/retry`.

Shallow embedding of `src/retry_command/src/lib.rs` (the `RetryCommand`
builder, its `should_stop` stop predicate, its `rewrite_code` table lookup
and the `status_and_code` run loop) and of
`src/retry_command/src/exit_code_ext.rs` (the `ExitCodeExt` status
resolver).

Modelling conventions:
- Rust `i32` exit codes and signals become `Int` (no arithmetic in the
  sources can overflow 32 bits: the only arithmetic is `signal + 128` on
  small signal numbers).
- `Duration` values are non-negative, so `retry_timeout`, `retry_delay`
  and elapsed wall-clock time become `Nat` (an abstract clock unit).
  `should_stop` in the source receives the start `Instant` and computes
  `Instant::now() - start`; here it receives that elapsed duration
  directly.
- `io::Result` / fallible methods become `Except IOError`.
- The `command : Command` and `logger : Option<Box<Write>>` fields of
  `RetryCommand` are external handles (process spec, log sink); the run
  loop is instead parameterised by a stream `outcomes : Nat → ...` giving
  the result of each launch, and by `elapsed : Nat → Nat` giving the
  elapsed time observed when evaluating the stop predicate after attempt
  `n`.  Logging is a control-flow-irrelevant side effect and is dropped.
- The unbounded `loop` in `status_and_code` becomes fuel-based recursion
  returning `none` when fuel runs out; on termination the loop also
  reports how many launches and how many inter-attempt sleeps occurred.
-/

namespace Retry

/-- Classification of a launch failure, mirroring the `io::ErrorKind`
cases distinguished by `impl ExitCodeExt for io::Error`: `NotFound`,
`PermissionDenied`, and every other kind collapsed into `Other`
(the `_` arm of the `match`). -/
inductive ErrorKind where
  | NotFound
  | PermissionDenied
  | Other
deriving DecidableEq

/-- An `io::Error`: its `kind()` and its `Display`/`description()` text.
In the source the diagnostic attached to a classified launch failure is
`format!("{}", self)`, i.e. this message. -/
structure IOError where
  kind : ErrorKind
  message : String
deriving DecidableEq

/-- Observable part of `std::process::ExitStatus` used by the resolver:
`code()` and (unix) `signal()`, each an `Option<i32>`.
`Exited c` is `⟨some c, none⟩`, `Signaled s` is `⟨none, some s⟩`, and
`⟨none, none⟩` is the unrepresentable platform case. -/
structure ExitStatus where
  code : Option Int
  signal : Option Int
deriving DecidableEq

/-- `impl ExitCodeExt for ExitStatus`: a normal exit code is returned
as-is with no diagnostic; a signal death returns `signal + 128` with no
diagnostic; otherwise the resolution fails with an `Other`-kind error
carrying the source's literal message. -/
def ExitStatus.exit_code (self : ExitStatus) : Except IOError (Int × Option String) :=
  match self.code with
  | some exit_code => .ok (exit_code, none)
  | none =>
    match self.signal with
    | some signal => .ok (signal + 128, none)
    | none => .error ⟨ErrorKind.Other, "Unkonwn exit code"⟩

/-- `impl ExitCodeExt for io::Error`: `NotFound` resolves to 127,
`PermissionDenied` to 126, each with the error's display text as the
diagnostic; any other kind fails with a fresh error of the same kind and
description. -/
def IOError.exit_code (self : IOError) : Except IOError (Int × Option String) :=
  match self.kind with
  | ErrorKind.NotFound => .ok (127, some self.message)
  | ErrorKind.PermissionDenied => .ok (126, some self.message)
  | ErrorKind.Other => .error ⟨self.kind, self.message⟩

/-- `impl ExitCodeExt for io::Result<ExitStatus>`: dispatch to the
status resolver on `Ok` and to the error resolver on `Err`. -/
def resultExitCode (self : Except IOError ExitStatus) : Except IOError (Int × Option String) :=
  match self with
  | .ok status => status.exit_code
  | .error e => e.exit_code

/-- Policy fields of `RetryCommand` (the `command` and `logger` handles
are external, see the module docstring). -/
structure RetryCommand where
  retry_delay : Nat
  retry_timeout : Nat
  retry_until : List Int
  retry_on : Option (List Int)
  rewrite : List (Int × Int)
deriving DecidableEq

namespace RetryCommand

/-- `RetryCommand::new`: zero timeout and delay, `retry_until = [0]`,
`retry_on` unset, empty rewrite table. -/
def new : RetryCommand :=
  { retry_timeout := 0
    retry_until := [0]
    retry_on := none
    retry_delay := 0
    rewrite := [] }

/-- Builder method `retry_timeout`. -/
def set_retry_timeout (self : RetryCommand) (value : Nat) : RetryCommand :=
  { self with retry_timeout := value }

/-- Builder method `retry_delay`. -/
def set_retry_delay (self : RetryCommand) (value : Nat) : RetryCommand :=
  { self with retry_delay := value }

/-- Builder method `retry_until`. -/
def set_retry_until (self : RetryCommand) (value : List Int) : RetryCommand :=
  { self with retry_until := value }

/-- Builder method `retry_on`: always stores `Some(value)`. -/
def set_retry_on (self : RetryCommand) (value : List Int) : RetryCommand :=
  { self with retry_on := some value }

/-- Builder method `rewrite`. -/
def set_rewrite (self : RetryCommand) (value : List (Int × Int)) : RetryCommand :=
  { self with rewrite := value }

/-- The body of the `for` loop in `rewrite_code`: scan the (already
reversed) pair list, returning the `to` component of the first pair whose
`from` component equals `code`, else `code` unchanged. -/
def rewriteLookup (code : Int) : List (Int × Int) → Int
  | [] => code
  | (from_code, to_code) :: rest =>
    if from_code == code then to_code else rewriteLookup code rest

/-- `RetryCommand::rewrite_code`: iterate `self.rewrite` in reverse and
apply at most one rewrite (the last match in configuration order). -/
def rewrite_code (self : RetryCommand) (code : Int) : Int :=
  rewriteLookup code self.rewrite.reverse

/-- `RetryCommand::should_stop` with the elapsed duration
`Instant::now() - start` passed in directly: stop when the code is in
`retry_until`; otherwise stop when `retry_on` is set and does not contain
the code, or when the elapsed time has reached `retry_timeout`. -/
def should_stop (self : RetryCommand) (code : Int) (elapsed : Nat) : Bool :=
  if self.retry_until.contains code then
    true
  else
    let ret :=
      match self.retry_on with
      | some retry_on => ! retry_on.contains code
      | none => false
    (ret || decide (elapsed ≥ self.retry_timeout))

/-- The `loop` of `RetryCommand::status_and_code`, starting at attempt
`n` with the given fuel.  Each iteration launches (reads `outcomes n`),
resolves via `resultExitCode`, propagates a resolution failure
immediately, and otherwise either stops — returning the raw launch
result paired with the rewritten code — or sleeps and retries.  The
returned pair of counters gives (number of launches, number of sleeps)
performed from attempt `n` on; `none` means the fuel ran out before the
loop stopped. -/
def status_and_code_loop (self : RetryCommand)
    (outcomes : Nat → Except IOError ExitStatus) (elapsed : Nat → Nat) :
    Nat → Nat → Option (Except IOError (Except IOError ExitStatus × Int) × Nat × Nat)
  | _, 0 => none
  | n, fuel + 1 =>
    match resultExitCode (outcomes n) with
    | .error e => some (.error e, 1, 0)
    | .ok (code, _msg) =>
      if self.should_stop code (elapsed n) then
        some (.ok (outcomes n, self.rewrite_code code), 1, 0)
      else
        match status_and_code_loop self outcomes elapsed (n + 1) fuel with
        | some (r, launches, sleeps) => some (r, launches + 1, sleeps + 1)
        | none => none

/-- `RetryCommand::status_and_code`: run the loop from attempt 0. -/
def status_and_code (self : RetryCommand)
    (outcomes : Nat → Except IOError ExitStatus) (elapsed : Nat → Nat)
    (fuel : Nat) : Option (Except IOError (Except IOError ExitStatus × Int) × Nat × Nat) :=
  status_and_code_loop self outcomes elapsed 0 fuel

end RetryCommand

/-! ## Helper lemmas (shared) -/

/-- Scanning pairs none of which match the code leaves it unchanged. -/
theorem rewriteLookup_no_match (code : Int) (l : List (Int × Int))
    (h : ∀ p ∈ l, p.1 ≠ code) :
    RetryCommand.rewriteLookup code l = code := by
  induction l with
  | nil => rfl
  | cons p rest ih =>
    obtain ⟨f, t⟩ := p
    have hf : f ≠ code := h (f, t) (List.mem_cons_self _ _)
    simp only [RetryCommand.rewriteLookup, beq_iff_eq, hf, if_false]
    exact ih fun q hq => h q (List.mem_cons_of_mem _ hq)

/-- A non-matching prefix of the scan can be dropped. -/
theorem rewriteLookup_append (code : Int) (l r : List (Int × Int))
    (h : ∀ p ∈ l, p.1 ≠ code) :
    RetryCommand.rewriteLookup code (l ++ r) =
      RetryCommand.rewriteLookup code r := by
  induction l with
  | nil => rfl
  | cons p rest ih =>
    obtain ⟨f, t⟩ := p
    have hf : f ≠ code := h (f, t) (List.mem_cons_self _ _)
    simp only [List.cons_append, RetryCommand.rewriteLookup, beq_iff_eq, hf, if_false]
    exact ih fun q hq => h q (List.mem_cons_of_mem _ hq)

/-- With `retry_timeout = 0` the stop predicate is identically true. -/
theorem should_stop_of_zero_timeout (self : RetryCommand)
    (h0 : self.retry_timeout = 0) (code : Int) (elapsed : Nat) :
    self.should_stop code elapsed = true := by
  by_cases hc : code ∈ self.retry_until
  · simp [RetryCommand.should_stop, hc]
  · simp [RetryCommand.should_stop, hc, h0]

/-- With `retry_on = Some([])` the stop predicate is identically true. -/
theorem should_stop_of_empty_retry_on (self : RetryCommand)
    (hon : self.retry_on = some []) (code : Int) (elapsed : Nat) :
    self.should_stop code elapsed = true := by
  by_cases hc : code ∈ self.retry_until
  · simp [RetryCommand.should_stop, hc]
  · simp [RetryCommand.should_stop, hc, hon]

/-- If attempt 0 resolves and the stop predicate holds there, the run
loop returns after exactly one launch with zero sleeps, pairing the raw
result with the rewritten code. -/
theorem status_and_code_single_launch (self : RetryCommand)
    (outcomes : Nat → Except IOError ExitStatus) (elapsed : Nat → Nat)
    (code : Int) (msg : Option String) (fuel : Nat)
    (hres : resultExitCode (outcomes 0) = .ok (code, msg))
    (hstop : self.should_stop code (elapsed 0) = true) :
    self.status_and_code outcomes elapsed (fuel + 1) =
      some (.ok (outcomes 0, self.rewrite_code code), 1, 0) := by
  simp [RetryCommand.status_and_code, RetryCommand.status_and_code_loop, hres, hstop]

/-! ## Claim theorems -/

/-- C1: for every code and every elapsed time, if the code is a member of
`retry_until` then `should_stop` returns true, irrespective of `retry_on`
and of whether the elapsed time reached `retry_timeout`. -/
theorem retry_until_has_highest_precedence (self : RetryCommand)
    (code : Int) (elapsed : Nat)
    (h : code ∈ self.retry_until) :
    self.should_stop code elapsed = true := by
  simp [RetryCommand.should_stop, h]

/-- Witness for C1: a policy with `retry_on` set to a set excluding the
code and with the elapsed time short of the timeout still stops on a
`retry_until` member. -/
theorem retry_until_has_highest_precedence_witness :
    (7 : Int) ∈ (⟨0, 10, [7], some [3], []⟩ : RetryCommand).retry_until ∧
    (⟨0, 10, [7], some [3], []⟩ : RetryCommand).should_stop 7 2 = true :=
  ⟨by decide,
   retry_until_has_highest_precedence ⟨0, 10, [7], some [3], []⟩ 7 2 (by decide)⟩

/-- C2: for every code and every elapsed time, if `retry_on` is set and
the code belongs neither to `retry_on` nor to `retry_until`, then
`should_stop` returns true immediately, without the elapsed time needing
to reach `retry_timeout`. -/
theorem not_in_retry_on_stops (self : RetryCommand)
    (code : Int) (elapsed : Nat) (l : List Int)
    (hon : self.retry_on = some l) (hmem : code ∉ l)
    (huntil : code ∉ self.retry_until) :
    self.should_stop code elapsed = true := by
  simp [RetryCommand.should_stop, hon, hmem, huntil]

/-- Witness for C2: code 2, `retry_on = Some([1])`, elapsed time 0 well
short of the 10-unit timeout. -/
theorem not_in_retry_on_stops_witness :
    (⟨0, 10, [0], some [1], []⟩ : RetryCommand).should_stop 2 0 = true :=
  not_in_retry_on_stops ⟨0, 10, [0], some [1], []⟩ 2 0 [1] rfl (by decide) (by decide)

/-- C3: `rewrite_code` returns the `to` value of the last pair in
configuration order whose `from` equals the code (last-match-wins), and
returns the code unchanged when no pair matches; the rewrite is applied
once (the result is the stored `to`, not itself rewritten again). -/
theorem rewrite_code_last_match_wins (self : RetryCommand)
    (code tocode : Int) (l₁ l₂ : List (Int × Int)) :
    (self.rewrite = l₁ ++ (code, tocode) :: l₂ → (∀ p ∈ l₂, p.1 ≠ code) →
      self.rewrite_code code = tocode) ∧
    ((∀ p ∈ self.rewrite, p.1 ≠ code) → self.rewrite_code code = code) := by
  constructor
  · intro hrw hl₂
    unfold RetryCommand.rewrite_code
    rw [hrw, List.reverse_append, List.reverse_cons, List.append_assoc,
      List.singleton_append]
    rw [rewriteLookup_append code l₂.reverse _
      (fun p hp => hl₂ p (List.mem_reverse.mp hp))]
    simp [RetryCommand.rewriteLookup]
  · intro hall
    unfold RetryCommand.rewrite_code
    exact rewriteLookup_no_match code _
      (fun p hp => hall p (List.mem_reverse.mp hp))

/-- Witness for C3: `rewrite = [(1,10),(1,20)]` maps the final code 1 to
20 (the later pair wins), and `rewrite = [(1,10)]` leaves code 2
unchanged. -/
theorem rewrite_code_last_match_wins_witness :
    (⟨0, 0, [0], none, [(1, 10), (1, 20)]⟩ : RetryCommand).rewrite_code 1 = 20 ∧
    (⟨0, 0, [0], none, [(1, 10)]⟩ : RetryCommand).rewrite_code 2 = 2 :=
  ⟨(rewrite_code_last_match_wins ⟨0, 0, [0], none, [(1, 10), (1, 20)]⟩ 1 20
      [(1, 10)] []).1 rfl (by decide),
   (rewrite_code_last_match_wins ⟨0, 0, [0], none, [(1, 10)]⟩ 2 2
      [] []).2 (by decide)⟩

/-- C4: an outcome that exited normally with code `c` resolves to
`(c, no diagnostic)`; an outcome terminated by signal `s` resolves to
`(s + 128, no diagnostic)`; in particular signal 9 resolves to 137. -/
theorem resolver_exit_and_signal :
    (∀ (c : Int) (sig : Option Int),
      ExitStatus.exit_code ⟨some c, sig⟩ = .ok (c, none)) ∧
    (∀ s : Int, ExitStatus.exit_code ⟨none, some s⟩ = .ok (s + 128, none)) ∧
    ExitStatus.exit_code ⟨none, some 9⟩ = .ok (137, none) := by
  refine ⟨fun c sig => rfl, fun s => rfl, ?_⟩
  simp [ExitStatus.exit_code]

/-- C5: a `NotFound` launch failure resolves to `(127, message)`, a
`PermissionDenied` one to `(126, message)`, and any other kind fails with
an error instead of a code. -/
theorem resolver_launch_failures :
    (∀ msg : String,
      IOError.exit_code ⟨ErrorKind.NotFound, msg⟩ = .ok (127, some msg)) ∧
    (∀ msg : String,
      IOError.exit_code ⟨ErrorKind.PermissionDenied, msg⟩ = .ok (126, some msg)) ∧
    (∀ msg : String,
      IOError.exit_code ⟨ErrorKind.Other, msg⟩ = .error ⟨ErrorKind.Other, msg⟩) :=
  ⟨fun _ => rfl, fun _ => rfl, fun _ => rfl⟩

/-- C6: an outcome with neither exit code nor signal fails resolution
with the unresolved-status error, and any resolution failure at the
first attempt makes the run loop return that error after exactly one
launch, with zero sleeps and no rewritten code. -/
theorem unresolved_status_propagates (self : RetryCommand)
    (outcomes : Nat → Except IOError ExitStatus) (elapsed : Nat → Nat)
    (e : IOError) (fuel : Nat)
    (hres : resultExitCode (outcomes 0) = .error e) :
    ExitStatus.exit_code ⟨none, none⟩ =
      .error ⟨ErrorKind.Other, "Unkonwn exit code"⟩ ∧
    self.status_and_code outcomes elapsed (fuel + 1) = some (.error e, 1, 0) := by
  refine ⟨rfl, ?_⟩
  simp [RetryCommand.status_and_code, RetryCommand.status_and_code_loop, hres]

/-- Witness for C6: a stream whose first outcome has neither code nor
signal makes the loop fail after one launch and zero sleeps. -/
theorem unresolved_status_propagates_witness :
    resultExitCode (.ok ⟨none, none⟩) =
      .error ⟨ErrorKind.Other, "Unkonwn exit code"⟩ ∧
    RetryCommand.new.status_and_code (fun _ => .ok ⟨none, none⟩) (fun _ => 0) 1 =
      some (.error ⟨ErrorKind.Other, "Unkonwn exit code"⟩, 1, 0) :=
  ⟨rfl,
   (unresolved_status_propagates RetryCommand.new (fun _ => .ok ⟨none, none⟩)
     (fun _ => 0) ⟨ErrorKind.Other, "Unkonwn exit code"⟩ 0 rfl).2⟩

/-- C7: with `retry_timeout = 0` (the default), `should_stop` returns
true for every code and every elapsed time, and whenever the first
attempt resolves to a code the run loop performs exactly one launch and
zero sleeps, returning that attempt's result with its rewritten code. -/
theorem zero_timeout_single_run (self : RetryCommand)
    (h0 : self.retry_timeout = 0) :
    (∀ (code : Int) (elapsed : Nat), self.should_stop code elapsed = true) ∧
    (∀ (outcomes : Nat → Except IOError ExitStatus) (elapsed : Nat → Nat)
        (code : Int) (msg : Option String) (fuel : Nat),
      resultExitCode (outcomes 0) = .ok (code, msg) →
      self.status_and_code outcomes elapsed (fuel + 1) =
        some (.ok (outcomes 0, self.rewrite_code code), 1, 0)) :=
  ⟨fun code elapsed => should_stop_of_zero_timeout self h0 code elapsed,
   fun outcomes elapsed code msg fuel hres =>
    status_and_code_single_launch self outcomes elapsed code msg fuel hres
      (should_stop_of_zero_timeout self h0 code (elapsed 0))⟩

/-- Witness for C7: the default policy stops on exit code 42 at elapsed
time 0, and a constant code-42 stream is launched exactly once. -/
theorem zero_timeout_single_run_witness :
    RetryCommand.new.should_stop 42 0 = true ∧
    RetryCommand.new.status_and_code (fun _ => .ok ⟨some 42, none⟩) (fun _ => 0) 5 =
      some (.ok (.ok ⟨some 42, none⟩, 42), 1, 0) :=
  ⟨(zero_timeout_single_run RetryCommand.new rfl).1 42 0,
   (zero_timeout_single_run RetryCommand.new rfl).2
     (fun _ => .ok ⟨some 42, none⟩) (fun _ => 0) 42 none 4 rfl⟩

/-- C8: the resolver computes `signal + 128` exactly over the integers,
and membership in `retry_until`, membership in `retry_on`, and equality
against the rewrite table's `from` values compare the full resolved
integer, never the value modulo 256: code 137 matches a `retry_until`
containing 137 and matches neither one containing 9 nor one containing
137 + 256; it matches a `retry_on` containing 137 (so the loop keeps
retrying before the timeout) and matches neither a `retry_on` containing
9 nor one containing 137 + 256 (each stops immediately); and the rewrite
table distinguishes `from = 137` from `from = 9`. -/
theorem full_integer_comparisons :
    (∀ s : Int, ExitStatus.exit_code ⟨none, some s⟩ = .ok (s + 128, none)) ∧
    (∀ (self : RetryCommand) (elapsed : Nat),
      (137 : Int) ∈ self.retry_until →
      self.should_stop 137 elapsed = true) ∧
    (∀ (self : RetryCommand) (elapsed : Nat),
      self.retry_until = [9] → self.retry_on = none →
      elapsed < self.retry_timeout →
      self.should_stop 137 elapsed = false) ∧
    (∀ (self : RetryCommand) (elapsed : Nat),
      self.retry_until = [137 + 256] → self.retry_on = none →
      elapsed < self.retry_timeout →
      self.should_stop 137 elapsed = false) ∧
    (∀ (self : RetryCommand) (elapsed : Nat),
      (137 : Int) ∉ self.retry_until → self.retry_on = some [137] →
      elapsed < self.retry_timeout →
      self.should_stop 137 elapsed = false) ∧
    (∀ (self : RetryCommand) (elapsed : Nat),
      (137 : Int) ∉ self.retry_until → self.retry_on = some [9] →
      self.should_stop 137 elapsed = true) ∧
    (∀ (self : RetryCommand) (elapsed : Nat),
      (137 : Int) ∉ self.retry_until → self.retry_on = some [137 + 256] →
      self.should_stop 137 elapsed = true) ∧
    (∀ self : RetryCommand,
      self.rewrite = [(137, 5)] → self.rewrite_code 137 = 5) ∧
    (∀ self : RetryCommand,
      self.rewrite = [(9, 5)] → self.rewrite_code 137 = 137) := by
  refine ⟨fun s => rfl, ?_, ?_, ?_, ?_, ?_, ?_, ?_, ?_⟩
  · intro self elapsed h
    simp [RetryCommand.should_stop, h]
  · intro self elapsed huntil hon hlt
    simp [RetryCommand.should_stop, huntil, hon, Nat.not_le.mpr hlt]
  · intro self elapsed huntil hon hlt
    simp [RetryCommand.should_stop, huntil, hon, Nat.not_le.mpr hlt]
  · intro self elapsed huntil hon hlt
    simp [RetryCommand.should_stop, huntil, hon, Nat.not_le.mpr hlt]
  · intro self elapsed huntil hon
    simp [RetryCommand.should_stop, huntil, hon]
  · intro self elapsed huntil hon
    simp [RetryCommand.should_stop, huntil, hon]
  · intro self hrw
    simp [RetryCommand.rewrite_code, hrw, RetryCommand.rewriteLookup]
  · intro self hrw
    simp [RetryCommand.rewrite_code, hrw, RetryCommand.rewriteLookup]

/-- Witness for C8: concrete policies exercising every conjunct — the
resolved code 137 stops on `retry_until = [137]`, does not stop on
`retry_until = [9]` or `[137 + 256]` before the timeout, keeps retrying
on `retry_on = Some([137])` before the timeout, stops immediately on
`retry_on = Some([9])` and `Some([137 + 256])`, and the rewrite table
distinguishes `from = 137` from `from = 9`. -/
theorem full_integer_comparisons_witness :
    ExitStatus.exit_code ⟨none, some 9⟩ = .ok (9 + 128, none) ∧
    (⟨0, 10, [137], none, []⟩ : RetryCommand).should_stop 137 3 = true ∧
    (⟨0, 10, [9], none, []⟩ : RetryCommand).should_stop 137 3 = false ∧
    (⟨0, 10, [137 + 256], none, []⟩ : RetryCommand).should_stop 137 3 = false ∧
    (⟨0, 10, [0], some [137], []⟩ : RetryCommand).should_stop 137 3 = false ∧
    (⟨0, 10, [0], some [9], []⟩ : RetryCommand).should_stop 137 3 = true ∧
    (⟨0, 10, [0], some [137 + 256], []⟩ : RetryCommand).should_stop 137 3 = true ∧
    (⟨0, 0, [0], none, [(137, 5)]⟩ : RetryCommand).rewrite_code 137 = 5 ∧
    (⟨0, 0, [0], none, [(9, 5)]⟩ : RetryCommand).rewrite_code 137 = 137 :=
  ⟨full_integer_comparisons.1 9,
   full_integer_comparisons.2.1 ⟨0, 10, [137], none, []⟩ 3 (by decide),
   full_integer_comparisons.2.2.1 ⟨0, 10, [9], none, []⟩ 3 rfl rfl (by decide),
   full_integer_comparisons.2.2.2.1 ⟨0, 10, [137 + 256], none, []⟩ 3 rfl rfl (by decide),
   full_integer_comparisons.2.2.2.2.1 ⟨0, 10, [0], some [137], []⟩ 3 (by decide) rfl
     (by decide),
   full_integer_comparisons.2.2.2.2.2.1 ⟨0, 10, [0], some [9], []⟩ 3 (by decide) rfl,
   full_integer_comparisons.2.2.2.2.2.2.1 ⟨0, 10, [0], some [137 + 256], []⟩ 3
     (by decide) rfl,
   full_integer_comparisons.2.2.2.2.2.2.2.1 ⟨0, 0, [0], none, [(137, 5)]⟩ rfl,
   full_integer_comparisons.2.2.2.2.2.2.2.2 ⟨0, 0, [0], none, [(9, 5)]⟩ rfl⟩

/-- C9: status resolution is deterministic — two resolutions of the same
process outcome yield the same result. -/
theorem resolver_deterministic (o : Except IOError ExitStatus)
    (r₁ r₂ : Except IOError (Int × Option String))
    (h₁ : resultExitCode o = r₁) (h₂ : resultExitCode o = r₂) :
    r₁ = r₂ :=
  h₁.symm.trans h₂

/-- Witness for C9: resolving a normal exit with code 1 twice gives the
same `(1, no diagnostic)` result. -/
theorem resolver_deterministic_witness :
    (Except.ok ((1 : Int), (none : Option String)) :
      Except IOError (Int × Option String)) = .ok (1, none) :=
  resolver_deterministic (.ok ⟨some 1, none⟩) _ _ rfl rfl

/-- C10: with `retry_on` set to the empty list, `should_stop` returns
true for every code and every elapsed time regardless of
`retry_timeout`, so the run loop performs exactly one launch and zero
sleeps whenever the first attempt resolves. -/
theorem empty_retry_on_stops_everything (self : RetryCommand)
    (hon : self.retry_on = some []) :
    (∀ (code : Int) (elapsed : Nat), self.should_stop code elapsed = true) ∧
    (∀ (outcomes : Nat → Except IOError ExitStatus) (elapsed : Nat → Nat)
        (code : Int) (msg : Option String) (fuel : Nat),
      resultExitCode (outcomes 0) = .ok (code, msg) →
      self.status_and_code outcomes elapsed (fuel + 1) =
        some (.ok (outcomes 0, self.rewrite_code code), 1, 0)) :=
  ⟨fun code elapsed => should_stop_of_empty_retry_on self hon code elapsed,
   fun outcomes elapsed code msg fuel hres =>
    status_and_code_single_launch self outcomes elapsed code msg fuel hres
      (should_stop_of_empty_retry_on self hon code (elapsed 0))⟩

/-- Witness for C10: a policy with a large timeout but an empty
`retry_on` stops on code 5 at elapsed time 0 and launches exactly
once. -/
theorem empty_retry_on_stops_everything_witness :
    ((RetryCommand.new.set_retry_timeout 100).set_retry_on []).should_stop 5 0 = true ∧
    ((RetryCommand.new.set_retry_timeout 100).set_retry_on []).status_and_code
        (fun _ => .ok ⟨some 5, none⟩) (fun _ => 0) 3 =
      some (.ok (.ok ⟨some 5, none⟩, 5), 1, 0) :=
  ⟨(empty_retry_on_stops_everything
      ((RetryCommand.new.set_retry_timeout 100).set_retry_on []) rfl).1 5 0,
   (empty_retry_on_stops_everything
      ((RetryCommand.new.set_retry_timeout 100).set_retry_on []) rfl).2
     (fun _ => .ok ⟨some 5, none⟩) (fun _ => 0) 5 none 2 rfl⟩

end Retry
